import Mathlib

set_option maxRecDepth 100000

/-!
# Verification of the feature query translation & pagination engine

Shallow embedding of `src/features/routes/items.rs` (crate `ogcapi`):
the `Query` struct and its methods (`to_string`, `to_string_with_offset`,
`make_envelope`), the SQL assembly and navigation-link computation of
`handle_items`, and the write path of `handle_item` (`Put`).

Modelling conventions:
* Rust `isize` values (`limit`, `offset`) are modelled as `Int` (the claims
  under consideration do not exercise `isize` overflow).
* `number_matched` comes from `rows_affected()`, a `u64`; it is modelled as a
  `Nat` (the source never produces values ≥ 2^64 for it).
* bbox coordinates are `f64` in the source; the operations the claims exercise
  (list length, element removal by index, decimal display of the coordinates)
  do not depend on float arithmetic, so coordinates are modelled as `Int`,
  whose display agrees with Rust `f64` display on integral values.
* `properties`, `geometry` and `links` of a stored feature are opaque JSON
  values in the source; they are modelled as opaque `String`s since the engine
  only copies them.
* Rust's bitwise not on `isize` is `!x = -x - 1`; `as u64` is reduction
  modulo 2^64.
-/

/-- CRS identifier. In the source this is `crate::common::CRS`, outside the
files under inspection; the parts used here are modelled from the spec:
it "carries an EPSG-style numeric code as its canonical string form". -/
structure CRS where
  code : String
deriving DecidableEq, Repr

/-- Modelled from the spec: `CRS::default()` (from `crate::common`, not in the
inspected sources); the spec fixes the default CRS code to "4326". -/
def CRS.default : CRS := ⟨"4326"⟩

/-- Modelled from the spec: the `Display` of `crate::common::CRS` renders its
canonical string form, the EPSG-style numeric code. -/
def CRS.display (c : CRS) : String := c.code

/-- The recognized query parameters of `handle_items`
(`struct Query`, items.rs lines 11-20). `datetime` is
`crate::common::Datetime` in the source, whose definition is outside the
inspected files; the engine never inspects it beyond re-serialising it, so it
is modelled as its rendered string. -/
structure Query where
  limit : Option Int
  offset : Option Int
  bbox : Option (List Int)
  bbox_crs : Option CRS
  datetime : Option String
  crs : Option CRS
deriving DecidableEq, Repr

/-- Rust `str::parse::<i32>`: an optional sign followed by at least one ASCII
digit, value required to fit in `i32`. -/
def parseI32 (s : String) : Option Int :=
  let body : List Char :=
    match s.data with
    | '-' :: rest => rest
    | '+' :: rest => rest
    | l => l
  let sign : Int := match s.data with | '-' :: _ => -1 | _ => 1
  if body ≠ [] ∧ body.all Char.isDigit then
    let n : Int := sign * (body.foldl (fun a c => a * 10 + (c.toNat - 48)) (0 : Nat) : Nat)
    if -(2 ^ 31) ≤ n ∧ n < 2 ^ 31 then some n else none
  else none

inductive EnvelopeError
  | invalidCrs
deriving DecidableEq, Repr

deriving instance DecidableEq for Except

/-- The CRS code `make_envelope` resolves (items.rs lines 60-64):
the supplied `bbox_crs`, else `CRS::default()`. -/
def Query.bboxCrsCode (q : Query) : String :=
  (q.bbox_crs.getD CRS.default).code

/-- The envelope text built at items.rs lines 76-83:
`format!("ST_MakeEnvelope ( \x7bxmin\x7d, \x7bymin\x7d, \x7bxmax\x7d, \x7bymax\x7d, \x7bmy_srid\x7d )", ...)`. -/
def mkEnvelopeText (xmin ymin xmax ymax srid : Int) : String :=
  "ST_MakeEnvelope ( " ++ toString xmin ++ ", " ++ toString ymin ++ ", " ++
    toString xmax ++ ", " ++ toString ymax ++ ", " ++ toString srid ++ " )"

/-- `Query::make_envelope` (items.rs lines 58-90). The
`.expect("Parse bbox crs EPSG code")` panic on an unparseable CRS code is
modelled as `Except.error .invalidCrs`; `Vec::remove(i)` is `List.eraseIdx`. -/
def Query.make_envelope (q : Query) : Except EnvelopeError (Option String) :=
  match q.bbox with
  | none => .ok none
  | some bbox0 =>
    match parseI32 q.bboxCrsCode with
    | none => .error .invalidCrs
    | some srid =>
      -- downgrade 3d bbox to 2d
      let bbox := if bbox0.length = 6 then (bbox0.eraseIdx 5).eraseIdx 2 else bbox0
      if h : bbox.length = 4 then
        .ok (some (mkEnvelopeText (bbox.get ⟨0, by omega⟩) (bbox.get ⟨1, by omega⟩)
          (bbox.get ⟨2, by omega⟩) (bbox.get ⟨3, by omega⟩) srid))
      else .ok none

/-! ## `Query::to_string` (items.rs lines 23-50)

The source pushes one `key=value` component per present field, in declaration
order, and joins them with `&`. Each push is embedded as one component
function, and `to_string` as their concatenation, so that theorems can speak
about the component list before joining. -/

def Query.limitComp (q : Query) : List String :=
  match q.limit with | some l => ["limit=" ++ toString l] | none => []

def Query.offsetComp (q : Query) : List String :=
  match q.offset with | some o => ["offset=" ++ toString o] | none => []

def Query.bboxComp (q : Query) : List String :=
  match q.bbox with
  | some bbox => ["bbox=" ++ String.intercalate "," (bbox.map toString)]
  | none => []

def Query.bboxCrsComp (q : Query) : List String :=
  match q.bbox_crs with | some c => ["bboxCrs=" ++ c.display] | none => []

def Query.datetimeComp (q : Query) : List String :=
  match q.datetime with | some d => ["datetime=" ++ d] | none => []

def Query.crsComp (q : Query) : List String :=
  match q.crs with | some c => ["crs=" ++ c.display] | none => []

/-- The components after the `offset` one (bbox, bboxCrs, datetime, crs). -/
def Query.tailComps (q : Query) : List String :=
  q.bboxComp ++ q.bboxCrsComp ++ q.datetimeComp ++ q.crsComp

/-- The full component list pushed by `Query::to_string`. -/
def Query.components (q : Query) : List String :=
  q.limitComp ++ q.offsetComp ++ q.tailComps

/-- `Query::to_string`: the components joined with `&`. -/
def Query.to_string (q : Query) : String :=
  String.intercalate "&" q.components

/-- `Query::to_string_with_offset` (items.rs lines 52-56): clone the query,
overwrite `offset`, serialise. -/
def Query.to_string_with_offset (q : Query) (offset : Int) : String :=
  { q with offset := some offset }.to_string

/-- The field keys accepted when deserialising `Query`
(`#[serde(deny_unknown_fields)]` over fields `limit`, `offset`, `bbox`,
`bbox_crs`, `datetime`, `crs`; items.rs lines 11-20). -/
def recognizedQueryKeys : List String :=
  ["limit", "offset", "bbox", "bbox_crs", "datetime", "crs"]

/-- Split a character list at each occurrence of a separator character (the
behaviour of splitting a query string at `&` or a component at `=`). -/
def splitChars (sep : Char) : List Char → List (List Char)
  | [] => [[]]
  | c :: cs =>
    match splitChars sep cs with
    | [] => [[]]
    | g :: gs => if c = sep then [] :: g :: gs else (c :: g) :: gs

/-- The key of one `key=value` query-string component. -/
def componentKey (comp : List Char) : List Char := (splitChars '=' comp).headD []

/-- Whether the strict query parser accepts every key of a query string:
`deny_unknown_fields` rejects any component whose key is not a declared
field (value parsing aside). -/
def strictKeysAccept (s : String) : Bool :=
  ((splitChars '&' s.data).map componentKey).all fun k =>
    recognizedQueryKeys.any fun r => r.data == k

/-! ## `handle_items` SQL assembly (items.rs lines 193-214) -/

/-- items.rs lines 193-196: target re-projection SRID from the `crs`
parameter, `crs.code.parse::<i32>().unwrap_or(4326)`, defaulting to 4326 when
absent. -/
def resolveSrid (crs : Option CRS) : Int :=
  match crs with
  | some c => (parseI32 c.code).getD 4326
  | none => 4326

/-- The initial SELECT of `handle_items` (items.rs lines 198-202), with the
re-projection SRID formatted in. -/
def selectClause (srid : Int) : String :=
  "SELECT id, type, ST_AsGeoJSON( ST_Transform (geometry, " ++ toString srid ++
    "))::jsonb as geometry, properties, links\n        FROM data.features\n        WHERE collection = $1"

/-- items.rs lines 198-208: the sql part list before count/pagination. The
collection identifier is the bound parameter `$1`; when a bbox is present and
`make_envelope` yields a predicate, the source pushes
`format!("WHERE geometry && \x7b\x7d", envelop)` as a further part. A panic
of `make_envelope` propagates as the error. -/
def itemsFilterSqlParts (q : Query) : Except EnvelopeError (List String) :=
  let base := [selectClause (resolveSrid q.crs)]
  if q.bbox.isSome then
    match q.make_envelope with
    | .error e => .error e
    | .ok (some envelop) => .ok (base ++ ["WHERE geometry && " ++ envelop])
    | .ok none => .ok base
  else .ok base

/-- The parts joined with a single space, `sql.join(" ")` (items.rs line 210). -/
def itemsFilterSql (q : Query) : Except EnvelopeError String :=
  (itemsFilterSqlParts q).map (String.intercalate " ")

/-! ## `handle_items` pagination links (items.rs lines 222-256) -/

/-- Rust `!x` on `isize` (bitwise not, `-x - 1`) followed by `as u64`
(reduction modulo 2^64), as a natural number. -/
def rustNotAsU64 (x : Int) : Nat := ((-x - 1) % (2 ^ 64 : Int)).toNat

/-- Target offset of the previous link when emitted (items.rs lines 234-243):
emitted iff `offset != 0 && offset >= limit`, target `offset - limit`. -/
def prevTarget (limit offset : Int) : Option Int :=
  if offset ≠ 0 ∧ offset ≥ limit then some (offset - limit) else none

/-- Target offset of the next link when emitted (items.rs lines 245-254). The
source condition is `!(offset + limit) as u64 >= number_matched`, which by
Rust precedence is `((!(offset + limit)) as u64) >= number_matched` with `!`
the bitwise not on `isize`. -/
def nextTarget (limit offset : Int) (number_matched : Nat) : Option Int :=
  if rustNotAsU64 (offset + limit) ≥ number_matched then some (offset + limit) else none

inductive NavRel
  | previous
  | next
deriving DecidableEq, Repr

/-- The previous/next links pushed by `handle_items` (items.rs lines 222-256),
each as its relation together with the rewritten query string of its href.
Outside `if let Some(limit) = query.limit` no pagination links are computed;
inside, `offset` defaults to 0 (lines 227-229); hrefs come from
`to_string_with_offset` at the target offset. -/
def itemsNavLinks (q : Query) (number_matched : Nat) : List (NavRel × String) :=
  match q.limit with
  | none => []
  | some limit =>
    let offset := q.offset.getD 0
    (match prevTarget limit offset with
     | some t => [(NavRel.previous, q.to_string_with_offset t)]
     | none => []) ++
    (match nextTarget limit offset number_matched with
     | some t => [(NavRel.next, q.to_string_with_offset t)]
     | none => [])

/-! ## `handle_item` write path (items.rs lines 121-150) -/

/-- The INSERT part list of `handle_item` for `Method::Post`
(items.rs lines 125-129). -/
def insertSqlParts : List String :=
  ["INSERT INTO data.features",
   "(id, type, properties, geometry, links)",
   "VALUES ($1, $2, $3, ST_GeomFromGeoJSON($4), $5)"]

/-- The UPDATE part list of `handle_item` for `Method::Put`
(items.rs lines 131-135), verbatim from the source, including the trailing
parenthesis after `links = $5`. -/
def updateSqlParts : List String :=
  ["UPDATE data.features",
   "SET type = $2, properties = $3, geometry = ST_GeomFromGeoJSON($4), links = $5)",
   "WHERE id = $1"]

/-- The RETURNING clause pushed for both methods (items.rs lines 137-139). -/
def returningClause : String :=
  "RETURNING id, type, properties, ST_AsGeoJSON(geometry)::jsonb as geometry, links"

/-- The full INSERT statement text, `sql.join(" ")` (items.rs line 142). -/
def insertStatement : String :=
  String.intercalate " " (insertSqlParts ++ [returningClause])

/-- The full UPDATE statement text, `sql.join(" ")` (items.rs line 142). -/
def updateStatement : String :=
  String.intercalate " " (updateSqlParts ++ [returningClause])

/-- Number of opening parentheses minus closing parentheses in a string. A
statement whose balance is nonzero has unmatched parentheses and cannot be
well-formed SQL. -/
def parenBalance (s : String) : Int :=
  s.data.foldl (fun a c => if c = '(' then a + 1 else if c = ')' then a - 1 else a) 0

/-- Whether a pattern occurs as a prefix of a character list. -/
def listIsPrefixOf : List Char → List Char → Bool
  | [], _ => true
  | _ :: _, [] => false
  | p :: ps, c :: cs => p == c && listIsPrefixOf ps cs

/-- Number of occurrences of a pattern in a character list (positions counted
even when occurrences overlap; the patterns used below never overlap). -/
def countOccur (pat : List Char) : List Char → Nat
  | [] => 0
  | c :: cs => (if listIsPrefixOf pat (c :: cs) then 1 else 0) + countOccur pat cs

/-- A stored feature row of `data.features` as the write path sees it:
`properties`, `geometry` and `links` are opaque payloads. `type` is a Lean
keyword, hence the field name `ftype`. -/
structure StoredFeature where
  id : String
  ftype : String
  properties : String
  geometry : String
  links : String
deriving DecidableEq, Repr

/-- Row semantics of the (intended) statement
`UPDATE data.features SET type = $2, properties = $3, geometry = ..., links = $5 WHERE id = $1`
with the binds of items.rs lines 143-147: `$1 := body.id`, `$2 := body.type`,
`$3 := body.properties`, `$4 := body.geometry`, `$5 := body.links`. Every row
whose `id` equals the bound `$1` — the body's id — has its non-id columns set
from the body; other rows are untouched. -/
def execUpdate (store : List StoredFeature) (body : StoredFeature) : List StoredFeature :=
  store.map fun f =>
    if f.id = body.id then
      { f with ftype := body.ftype, properties := body.properties,
               geometry := body.geometry, links := body.links }
    else f

/-- The hrefs of the two links attached to the response feature
(items.rs lines 167-179): self is the request url; the collection link is the
url with `/items/\x7bid\x7d` — `id` being the *path* parameter — removed. -/
def itemLinkHrefs (url : String) (pathId : String) : List String :=
  [url, url.replace ("/items/" ++ pathId) ""]

/-- `handle_item` for `Method::Put` (items.rs lines 93-183, `Put` arm):
the body is deserialised into `feature`, the UPDATE runs with the body's
fields as binds (so the row selected by `WHERE id = $1` is the one named by
the body), and the links are built from the path parameter `id`. Returns the
store after the update and the response link hrefs. -/
def handleItemPut (url : String) (store : List StoredFeature) (pathId : String)
    (body : StoredFeature) : List StoredFeature × List String :=
  (execUpdate store body, itemLinkHrefs url pathId)

/-! ## Claim theorems -/

/-- Claim C6: for every 6-element bounding box `[x0,y0,z0,x1,y1,z1]`, the
spatial predicate builder reduces it to the 4-element form `[x0,y0,x1,y1]` by
removing index 5 and then index 2, regardless of the z-value magnitudes, and
builds the envelope from that reduced form. -/
theorem c6_bbox_3d_reduced_by_index (q : Query) (x0 y0 z0 x1 y1 z1 srid : Int)
    (hb : q.bbox = some [x0, y0, z0, x1, y1, z1])
    (hc : parseI32 q.bboxCrsCode = some srid) :
    (([x0, y0, z0, x1, y1, z1].eraseIdx 5).eraseIdx 2 = [x0, y0, x1, y1]) ∧
    q.make_envelope = .ok (some (mkEnvelopeText x0 y0 x1 y1 srid)) := by
  refine ⟨rfl, ?_⟩
  unfold Query.make_envelope
  rw [hb, hc]
  rfl

/-- Witness for C6 at bbox `[0,0,7,1,1,10]` with no `bbox_crs` supplied. -/
theorem c6_bbox_3d_reduced_by_index_witness :
    (([(0 : Int), 0, 7, 1, 1, 10].eraseIdx 5).eraseIdx 2 = [0, 0, 1, 1]) ∧
    (Query.make_envelope ⟨none, none, some [0, 0, 7, 1, 1, 10], none, none, none⟩) =
      .ok (some (mkEnvelopeText 0 0 1 1 4326)) :=
  c6_bbox_3d_reduced_by_index ⟨none, none, some [0, 0, 7, 1, 1, 10], none, none, none⟩
    0 0 7 1 1 10 4326 rfl (by decide)

/-- Claim C7: for every supplied bounding box whose length is neither 4 nor 6
(given a bbox CRS code that parses, so the builder does not panic first), no
spatial predicate is built and the query proceeds exactly as if no spatial
filter had been given: the sql part list stays the bare filtered SELECT. -/
theorem c7_bad_bbox_length_drops_predicate (q : Query) (b : List Int) (srid : Int)
    (hb : q.bbox = some b) (h4 : b.length ≠ 4) (h6 : b.length ≠ 6)
    (hc : parseI32 q.bboxCrsCode = some srid) :
    q.make_envelope = .ok none ∧
    itemsFilterSqlParts q = .ok [selectClause (resolveSrid q.crs)] := by
  have hme : q.make_envelope = .ok none := by
    unfold Query.make_envelope
    rw [hb, hc]
    simp only [if_neg h6]
    rw [dif_neg h4]
  refine ⟨hme, ?_⟩
  unfold itemsFilterSqlParts
  rw [hme, hb]
  rfl

/-- Witness for C7 at the 5-element bbox `[0,0,1,1,2]`. -/
theorem c7_bad_bbox_length_drops_predicate_witness :
    (Query.make_envelope ⟨none, none, some [0, 0, 1, 1, 2], none, none, none⟩) = .ok none ∧
    itemsFilterSqlParts ⟨none, none, some [0, 0, 1, 1, 2], none, none, none⟩ =
      .ok [selectClause (resolveSrid none)] :=
  c7_bad_bbox_length_drops_predicate ⟨none, none, some [0, 0, 1, 1, 2], none, none, none⟩
    [0, 0, 1, 1, 2] 4326 rfl (by decide) (by decide) (by decide)

/-- Claim C8: with a bounding box supplied, the SRID is resolved from the
supplied bbox CRS code — or the default code "4326" when absent — by parsing
it as an integer, and a code that does not parse is fatal: `make_envelope`
ends in the `InvalidCrs` panic, returning no predicate and falling back to
nothing. -/
theorem c8_unparseable_bbox_crs_fatal (q : Query) (b : List Int)
    (hb : q.bbox = some b) (hc : parseI32 q.bboxCrsCode = none) :
    q.make_envelope = .error .invalidCrs ∧
    (∀ c, q.bbox_crs = some c → q.bboxCrsCode = c.code) ∧
    (q.bbox_crs = none → q.bboxCrsCode = CRS.default.code) := by
  refine ⟨?_, ?_, ?_⟩
  · unfold Query.make_envelope
    rw [hb, hc]
  · intro c hcrs
    unfold Query.bboxCrsCode
    rw [hcrs]
    rfl
  · intro hcrs
    unfold Query.bboxCrsCode
    rw [hcrs]
    rfl

/-- Witness for C8 at bbox `[0,0,1,1]` with the unparseable CRS code
"EPSG:4326". -/
theorem c8_unparseable_bbox_crs_fatal_witness :
    (Query.make_envelope ⟨none, none, some [0, 0, 1, 1], some ⟨"EPSG:4326"⟩, none, none⟩) =
      .error .invalidCrs ∧
    (∀ c, (some (⟨"EPSG:4326"⟩ : CRS)) = some c →
      Query.bboxCrsCode ⟨none, none, some [0, 0, 1, 1], some ⟨"EPSG:4326"⟩, none, none⟩ = c.code) ∧
    ((some (⟨"EPSG:4326"⟩ : CRS)) = none →
      Query.bboxCrsCode ⟨none, none, some [0, 0, 1, 1], some ⟨"EPSG:4326"⟩, none, none⟩ =
        CRS.default.code) :=
  c8_unparseable_bbox_crs_fatal ⟨none, none, some [0, 0, 1, 1], some ⟨"EPSG:4326"⟩, none, none⟩
    [0, 0, 1, 1] rfl (by decide)

/-- Claim C10: when the target re-projection `crs` parameter is present but
its code does not parse as an integer, the request does not fail: the SRID
falls back to 4326 via `unwrap_or(4326)`, producing the same SELECT clause —
and the same whole sql part list — as when `crs` is absent. -/
theorem c10_crs_parse_failure_silently_4326 (q : Query) (c : CRS)
    (hq : q.crs = some c) (hp : parseI32 c.code = none) :
    resolveSrid q.crs = 4326 ∧
    resolveSrid none = 4326 ∧
    selectClause (resolveSrid q.crs) = selectClause (resolveSrid none) ∧
    itemsFilterSqlParts q = itemsFilterSqlParts { q with crs := none } := by
  have hr : resolveSrid q.crs = 4326 := by
    unfold resolveSrid
    rw [hq]
    show (parseI32 c.code).getD 4326 = 4326
    rw [hp]
    rfl
  refine ⟨hr, rfl, by rw [hr]; rfl, ?_⟩
  unfold itemsFilterSqlParts
  rw [hr]
  rfl

/-- Unfolding of `itemsNavLinks` once the limit is known. -/
theorem itemsNavLinks_of_limit (q : Query) (limit : Int) (nm : Nat)
    (h : q.limit = some limit) :
    itemsNavLinks q nm =
      (match prevTarget limit (q.offset.getD 0) with
       | some t => [(NavRel.previous, q.to_string_with_offset t)]
       | none => []) ++
      (match nextTarget limit (q.offset.getD 0) nm with
       | some t => [(NavRel.next, q.to_string_with_offset t)]
       | none => []) := by
  unfold itemsNavLinks
  rw [h]

/-- Claim C5: with pagination active (`limit` present, `offset` defaulting to
0), a previous link is emitted iff `offset ≠ 0` and `offset ≥ limit`, and when
emitted its href is the query string rewritten to exactly `offset - limit`;
consequently when `0 < offset < limit` no previous link is emitted. -/
theorem c5_previous_link_rule (q : Query) (limit : Int) (nm : Nat)
    (h : q.limit = some limit) :
    ((∃ s, (NavRel.previous, s) ∈ itemsNavLinks q nm) ↔
      (q.offset.getD 0 ≠ 0 ∧ q.offset.getD 0 ≥ limit)) ∧
    (∀ s, (NavRel.previous, s) ∈ itemsNavLinks q nm →
      s = q.to_string_with_offset (q.offset.getD 0 - limit)) ∧
    (0 < q.offset.getD 0 → q.offset.getD 0 < limit →
      ∀ s, (NavRel.previous, s) ∉ itemsNavLinks q nm) := by
  have hnl := itemsNavLinks_of_limit q limit nm h
  have hnext : ∀ s, (NavRel.previous, s) ∉
      (match nextTarget limit (q.offset.getD 0) nm with
       | some t => [(NavRel.next, q.to_string_with_offset t)]
       | none => ([] : List (NavRel × String))) := by
    intro s hs
    rcases hnt : nextTarget limit (q.offset.getD 0) nm with _ | t
    · rw [hnt] at hs
      exact absurd hs (List.not_mem_nil _)
    · rw [hnt] at hs
      simp at hs
  by_cases hp : q.offset.getD 0 ≠ 0 ∧ q.offset.getD 0 ≥ limit
  · have hpt : prevTarget limit (q.offset.getD 0) = some (q.offset.getD 0 - limit) := by
      unfold prevTarget
      rw [if_pos hp]
    rw [hnl, hpt]
    refine ⟨⟨fun _ => hp, fun _ => ?_⟩, fun s hs => ?_, fun h1 h2 => ?_⟩
    · exact ⟨q.to_string_with_offset (q.offset.getD 0 - limit),
        List.mem_append_left _ (List.mem_singleton_self _)⟩
    · rcases List.mem_append.mp hs with h1 | h2
      · simpa using h1
      · exact absurd h2 (hnext s)
    · exact absurd hp.2 (by omega)
  · have hpt : prevTarget limit (q.offset.getD 0) = none := by
      unfold prevTarget
      rw [if_neg hp]
    rw [hnl, hpt, List.nil_append]
    refine ⟨⟨fun hex => ?_, fun hcon => absurd hcon hp⟩,
      fun s hs => absurd hs (hnext s), fun _ _ s hs => absurd hs (hnext s)⟩
    rcases hex with ⟨s, hs⟩
    exact absurd hs (hnext s)

/-- Witness for C5 at `limit=2&offset=4` over 5 matches: the previous link is
emitted and targets offset 2. -/
theorem c5_previous_link_rule_witness :
    ((∃ s, (NavRel.previous, s) ∈ itemsNavLinks ⟨some 2, some 4, none, none, none, none⟩ 5) ↔
      ((4 : Int) ≠ 0 ∧ (4 : Int) ≥ 2)) ∧
    (∀ s, (NavRel.previous, s) ∈ itemsNavLinks ⟨some 2, some 4, none, none, none, none⟩ 5 →
      s = Query.to_string_with_offset ⟨some 2, some 4, none, none, none, none⟩ (4 - 2)) ∧
    ((0 : Int) < 4 → (4 : Int) < 2 →
      ∀ s, (NavRel.previous, s) ∉ itemsNavLinks ⟨some 2, some 4, none, none, none, none⟩ 5) :=
  c5_previous_link_rule ⟨some 2, some 4, none, none, none, none⟩ 2 5 rfl

/-- Claim C4 counterexample: the claim asserts every supplied parameter other
than `offset` reappears in a navigation link's query string under the *same
key*, so that the rewritten string re-parses. It fails for `bbox_crs`: a query
that arrived as `limit=2&offset=2&bbox_crs=3857` (accepted by the strict
parser) is re-serialised by `to_string_with_offset` as
`limit=2&offset=0&bboxCrs=3857` (items.rs line 41), whose key `bboxCrs` the
parser of `Query` — fields `limit`, `offset`, `bbox`, `bbox_crs`, `datetime`,
`crs` with `deny_unknown_fields` — rejects. -/
theorem c4_roundtrip_counterexample :
    Query.to_string_with_offset ⟨some 2, some 2, none, some ⟨"3857"⟩, none, none⟩ 0 =
      "limit=2&offset=0&bboxCrs=3857" ∧
    strictKeysAccept "limit=2&offset=0&bboxCrs=3857" = false ∧
    strictKeysAccept "limit=2&offset=2&bbox_crs=3857" = true := by
  refine ⟨by decide, by decide, by decide⟩

/-- Claim C4 amended: each navigation link's query string is the incoming
query's component list with only the offset component rewritten — `limit`,
`bbox`, `datetime` and `crs` reappear verbatim under their own keys — but a
supplied `bbox_crs` reappears (with the same value) under the key `bboxCrs`
instead of `bbox_crs`, so the rewritten string is rejected by the strict
parser whenever `bbox_crs` was supplied. -/
theorem c4_only_offset_rewritten (q : Query) (o : Int) (c : CRS)
    (hc : q.bbox_crs = some c) :
    ({ q with offset := some o } : Query).components =
      q.limitComp ++ ["offset=" ++ toString o] ++ q.tailComps ∧
    q.components = q.limitComp ++ q.offsetComp ++ q.tailComps ∧
    q.bboxCrsComp = ["bboxCrs=" ++ c.code] ∧
    q.to_string_with_offset o =
      String.intercalate "&" (q.limitComp ++ ["offset=" ++ toString o] ++ q.tailComps) := by
  refine ⟨rfl, rfl, ?_, rfl⟩
  unfold Query.bboxCrsComp
  rw [hc]
  rfl

/-- Witness for the amended C4 at `limit=2&offset=2&bbox_crs=3857`, offset
rewritten to 0. -/
theorem c4_only_offset_rewritten_witness :
    ({ (⟨some 2, some 2, none, some ⟨"3857"⟩, none, none⟩ : Query) with offset := some 0 } : Query).components =
      Query.limitComp ⟨some 2, some 2, none, some ⟨"3857"⟩, none, none⟩ ++
        ["offset=" ++ toString (0 : Int)] ++
        Query.tailComps ⟨some 2, some 2, none, some ⟨"3857"⟩, none, none⟩ ∧
    Query.components ⟨some 2, some 2, none, some ⟨"3857"⟩, none, none⟩ =
      Query.limitComp ⟨some 2, some 2, none, some ⟨"3857"⟩, none, none⟩ ++
        Query.offsetComp ⟨some 2, some 2, none, some ⟨"3857"⟩, none, none⟩ ++
        Query.tailComps ⟨some 2, some 2, none, some ⟨"3857"⟩, none, none⟩ ∧
    Query.bboxCrsComp ⟨some 2, some 2, none, some ⟨"3857"⟩, none, none⟩ =
      ["bboxCrs=" ++ CRS.code ⟨"3857"⟩] ∧
    Query.to_string_with_offset ⟨some 2, some 2, none, some ⟨"3857"⟩, none, none⟩ 0 =
      String.intercalate "&"
        (Query.limitComp ⟨some 2, some 2, none, some ⟨"3857"⟩, none, none⟩ ++
          ["offset=" ++ toString (0 : Int)] ++
          Query.tailComps ⟨some 2, some 2, none, some ⟨"3857"⟩, none, none⟩) :=
  c4_only_offset_rewritten ⟨some 2, some 2, none, some ⟨"3857"⟩, none, none⟩ 0 ⟨"3857"⟩ rfl

/-- Claim C9: in the PUT path, the id bound as `$1` — the parameter the
UPDATE's `WHERE id = $1` selects on — is the id of the request body, not the
path parameter: when the two differ, rows named by the path id are untouched,
rows named by the body's id are replaced by the payload, the store mutation
does not depend on the path id at all, and the path id appears only in the
response link hrefs. -/
theorem c9_update_keyed_on_body_id (url : String) (store : List StoredFeature)
    (pathId : String) (body : StoredFeature) (h : pathId ≠ body.id) :
    (∀ f ∈ store, f.id = pathId → f ∈ (handleItemPut url store pathId body).1) ∧
    (∀ f ∈ store, f.id = body.id →
      ({ f with ftype := body.ftype, properties := body.properties,
                geometry := body.geometry, links := body.links }) ∈
        (handleItemPut url store pathId body).1) ∧
    (∀ p2, (handleItemPut url store p2 body).1 = (handleItemPut url store pathId body).1) ∧
    (handleItemPut url store pathId body).2 = [url, url.replace ("/items/" ++ pathId) ""] := by
  refine ⟨?_, ?_, fun p2 => rfl, rfl⟩
  · intro f hf hfp
    have hne : f.id ≠ body.id := by
      rw [hfp]
      exact h
    exact List.mem_map.mpr ⟨f, hf, if_neg hne⟩
  · intro f hf hfe
    exact List.mem_map.mpr ⟨f, hf, if_pos hfe⟩

/-- Witness for C9: path id "a", body id "b"; the row "a" survives unchanged
and the row "b" takes the payload. -/
theorem c9_update_keyed_on_body_id_witness :
    (∀ f ∈ [(⟨"a", "ta", "pa", "ga", "la"⟩ : StoredFeature), ⟨"b", "tb", "pb", "gb", "lb"⟩],
      f.id = "a" → f ∈ (handleItemPut "http://x/collections/parks/items/a"
        [⟨"a", "ta", "pa", "ga", "la"⟩, ⟨"b", "tb", "pb", "gb", "lb"⟩] "a"
        ⟨"b", "t2", "p2", "g2", "l2"⟩).1) ∧
    (∀ f ∈ [(⟨"a", "ta", "pa", "ga", "la"⟩ : StoredFeature), ⟨"b", "tb", "pb", "gb", "lb"⟩],
      f.id = "b" →
      ({ f with ftype := "t2", properties := "p2", geometry := "g2", links := "l2" }) ∈
        (handleItemPut "http://x/collections/parks/items/a"
          [⟨"a", "ta", "pa", "ga", "la"⟩, ⟨"b", "tb", "pb", "gb", "lb"⟩] "a"
          ⟨"b", "t2", "p2", "g2", "l2"⟩).1) ∧
    (∀ p2, (handleItemPut "http://x/collections/parks/items/a"
        [(⟨"a", "ta", "pa", "ga", "la"⟩ : StoredFeature), ⟨"b", "tb", "pb", "gb", "lb"⟩] p2
        ⟨"b", "t2", "p2", "g2", "l2"⟩).1 =
      (handleItemPut "http://x/collections/parks/items/a"
        [⟨"a", "ta", "pa", "ga", "la"⟩, ⟨"b", "tb", "pb", "gb", "lb"⟩] "a"
        ⟨"b", "t2", "p2", "g2", "l2"⟩).1) ∧
    (handleItemPut "http://x/collections/parks/items/a"
        [(⟨"a", "ta", "pa", "ga", "la"⟩ : StoredFeature), ⟨"b", "tb", "pb", "gb", "lb"⟩] "a"
        ⟨"b", "t2", "p2", "g2", "l2"⟩).2 =
      ["http://x/collections/parks/items/a",
        String.replace "http://x/collections/parks/items/a" ("/items/" ++ "a") ""] :=
  c9_update_keyed_on_body_id "http://x/collections/parks/items/a"
    [⟨"a", "ta", "pa", "ga", "la"⟩, ⟨"b", "tb", "pb", "gb", "lb"⟩] "a"
    ⟨"b", "t2", "p2", "g2", "l2"⟩ (by decide)

/-- Claim C1: the spec states that a next link is emitted iff
`offset + limit < number_matched`. This FAILS on the code: the source
condition `!(offset + limit) as u64 >= number_matched` (items.rs line 245)
applies, by Rust precedence, the bitwise not to `offset + limit` *before* the
cast, instead of negating the comparison. At limit 2, offset 4,
number_matched 5 — the third page of a 5-feature collection —
`offset + limit = 6 ≥ 5`, so the claim forbids a next link, yet the code
computes `!(6) as u64 = 2^64 - 7 ≥ 5` and emits one targeting offset 6. -/
theorem c1_next_link_condition_bug :
    (NavRel.next, "limit=2&offset=6") ∈
        itemsNavLinks ⟨some 2, some 4, none, none, none, none⟩ 5 ∧
    ¬ ((4 : Int) + 2 < 5) ∧
    rustNotAsU64 (4 + 2) = 2 ^ 64 - 7 ∧
    nextTarget 2 4 5 = some 6 := by
  refine ⟨by decide, by decide, by decide, by decide⟩

/-- Claim C2: the spec states the assembled filter is the collection equality
AND the spatial predicate AND, when present, a temporal predicate from
`datetime`. This FAILS on the code: the spatial predicate is pushed as a
second `WHERE` clause, `format!("WHERE geometry && \x7b\x7d", envelop)`
(items.rs line 206), yielding `... WHERE collection = $1 WHERE geometry && ...`
with no `AND` anywhere; and `datetime` is never consulted when building the
query, so no temporal predicate exists at all. -/
theorem c2_filter_not_and_conjoined :
    (∀ q d, itemsFilterSqlParts { q with datetime := d } = itemsFilterSqlParts q) ∧
    itemsFilterSql ⟨none, none, some [0, 0, 1, 1], none, none, none⟩ =
      .ok ("SELECT id, type, ST_AsGeoJSON( ST_Transform (geometry, 4326))::jsonb as geometry, properties, links\n        FROM data.features\n        WHERE collection = $1 WHERE geometry && ST_MakeEnvelope ( 0, 0, 1, 1, 4326 )") ∧
    countOccur "WHERE".data
        "SELECT id, type, ST_AsGeoJSON( ST_Transform (geometry, 4326))::jsonb as geometry, properties, links\n        FROM data.features\n        WHERE collection = $1 WHERE geometry && ST_MakeEnvelope ( 0, 0, 1, 1, 4326 )".data = 2 ∧
    countOccur "AND".data
        "SELECT id, type, ST_AsGeoJSON( ST_Transform (geometry, 4326))::jsonb as geometry, properties, links\n        FROM data.features\n        WHERE collection = $1 WHERE geometry && ST_MakeEnvelope ( 0, 0, 1, 1, 4326 )".data = 0 := by
  refine ⟨fun q d => rfl, by decide, by decide, by decide⟩

/-- Claim C3: the spec states an update (PUT) fully replaces the stored
feature and doing it twice with the same payload is idempotent (the second
call succeeds). This FAILS on the code as written: the assembled UPDATE
statement carries a stray closing parenthesis after `links = $5`
(items.rs line 133, copied from the INSERT's `VALUES (... $5)` line), so its
parentheses are unbalanced — balance −1 where the INSERT's is 0 — and the
statement is not well-formed SQL: every PUT errors instead of replacing the
row. The row semantics the statement would have without the stray parenthesis
(`execUpdate`: full replacement of the non-id columns keyed on `$1`) is
idempotent, as the spec says. -/
theorem c3_update_statement_unbalanced :
    parenBalance updateStatement = -1 ∧
    parenBalance insertStatement = 0 ∧
    countOccur "links = $5)".data updateStatement.data = 1 ∧
    (∀ store body, execUpdate (execUpdate store body) body = execUpdate store body) := by
  refine ⟨by decide, by decide, by decide, ?_⟩
  intro store body
  induction store with
  | nil => rfl
  | cons f fs ih =>
    unfold execUpdate at ih ⊢
    simp only [List.map_cons, List.map_map] at ih ⊢
    rw [List.cons.injEq]
    refine ⟨?_, ih⟩
    by_cases h : f.id = body.id
    · simp [h]
    · simp [h]

/-- Witness for C10 at the unparseable re-projection code "EPSG:3857". -/
theorem c10_crs_parse_failure_silently_4326_witness :
    resolveSrid (some ⟨"EPSG:3857"⟩) = 4326 ∧
    resolveSrid none = 4326 ∧
    selectClause (resolveSrid (some ⟨"EPSG:3857"⟩)) = selectClause (resolveSrid none) ∧
    itemsFilterSqlParts ⟨some 2, none, none, none, none, some ⟨"EPSG:3857"⟩⟩ =
      itemsFilterSqlParts ⟨some 2, none, none, none, none, none⟩ :=
  c10_crs_parse_failure_silently_4326 ⟨some 2, none, none, none, none, some ⟨"EPSG:3857"⟩⟩
    ⟨"EPSG:3857"⟩ rfl (by decide)
